import Mathlib

/-
Verification of the Smart TRV controller (custom_components/smart_trv) against
its natural-language specification.  The controller logic of climate.py and the
constants of const.py are shallowly embedded over the rationals; the only
transcendental the source uses is math.exp, which enters solely through the
exponential step factor _alpha and the EWMA filter.  The embedding is therefore
parametrised by a function E : Q -> Q standing for exp; theorems that depend on
properties of exp take the hypothesis that E maps negative arguments into the
open interval (0, 1), which the real exponential satisfies.  A concrete
computable stand-in expQ with the same property is used to evaluate the model
on concrete inputs.
-/

namespace SmartTRV

/-- Constants from const.py. -/
def VALVE_OPEN_POSITION : ℤ := 255

def VALVE_CLOSED_POSITION : ℤ := 0

def VALVE_UPDATE_MIN_INTERVAL_S : ℚ := 60

def MIN_TEMP_RANGE_C : ℚ := 1/10

def WINDOW_CHECK_MIN_INTERVAL_S : ℚ := 30

def DEFAULT_STEADY_DEADBAND_C : ℚ := 1/2

def DEFAULT_DECAY_TAU_S : ℚ := 900

/-- Python max on rationals (if-based so that concrete evaluation reduces). -/
def qmax (a b : ℚ) : ℚ := if a ≤ b then b else a

/-- Python min on rationals. -/
def qmin (a b : ℚ) : ℚ := if a ≤ b then a else b

/-- Python abs on rationals. -/
def qabs (x : ℚ) : ℚ := if x < 0 then -x else x

/-- Python max on integers. -/
def zmax (a b : ℤ) : ℤ := if a ≤ b then b else a

/-- Python min on integers. -/
def zmin (a b : ℤ) : ℤ := if a ≤ b then a else b

/-- SmartTRVClimate._clamp: lo if x < lo else hi if x > hi else x. -/
def clamp (x lo hi : ℚ) : ℚ :=
  if x < lo then lo else if hi < x then hi else x

/-- SmartTRVClimate._clamp01. -/
def clamp01 (x : ℚ) : ℚ := clamp x 0 1

/-- Integer variant of the clamp used where the source clamps int positions. -/
def clampZ (x lo hi : ℤ) : ℤ :=
  if x < lo then lo else if hi < x then hi else x

/-- Python 3 round() on a real value: round half to even (banker's rounding). -/
def pyRound (x : ℚ) : ℤ :=
  let f : ℤ := ⌊x⌋
  let frac : ℚ := x - (f : ℚ)
  if frac < 1/2 then f
  else if (1:ℚ)/2 < frac then f + 1
  else if f % 2 = 0 then f else f + 1

/-- SmartTRVClimate._apply_deadband. -/
def apply_deadband (x db : ℚ) : ℚ :=
  if db ≤ 0 then x
  else if qabs x ≤ db then 0
  else if 0 < x then x - db else x + db

/-- SmartTRVClimate._snap_to_step for step > 1: round an integer to the nearest
multiple of step and clamp to the range. -/
def snap_to_step (value step lo hi : ℤ) : ℤ :=
  if step ≤ 1 then clampZ value lo hi
  else clampZ (pyRound ((clampZ value lo hi : ℚ) / (step : ℚ)) * step) lo hi

/-- The quantization applied by _async_set_valve_position before dispatch.
The minimum step constant VALVE_MIN_STEP is imported by climate.py but its
value is not declared in const.py, so the model leaves the step as a
parameter; it is first forced to at least 1 as in the source. -/
def quantize_position (step pos : ℤ) : ℤ :=
  if 1 < zmax 1 step then snap_to_step pos (zmax 1 step) VALVE_CLOSED_POSITION VALVE_OPEN_POSITION
  else clampZ pos VALVE_CLOSED_POSITION VALVE_OPEN_POSITION

/-- A computable stand-in for math.exp used to evaluate the model on concrete
inputs: like exp it is 1 at 0 and maps negative arguments into (0, 1). -/
def expQ (x : ℚ) : ℚ := 1 / (1 - x)

/-- The IMC process-model tuning parameters read in SmartTRVClimate.__init__. -/
structure ImcParams where
  kp_proc : ℚ
  tau : ℚ
  theta : ℚ
  lam : ℚ
  deriving DecidableEq, Repr

/-- The derived PI gains (_proportional_gain, _integral_gain). -/
structure Gains where
  kc : ℚ
  ki : ℚ
  deriving DecidableEq, Repr

/-- temp_range = max(MIN_TEMP_RANGE_C, max_temp - min_temp). -/
def temp_range (min_temp max_temp : ℚ) : ℚ :=
  qmax MIN_TEMP_RANGE_C (max_temp - min_temp)

/-- IMC gain derivation from SmartTRVClimate.__init__ (lines 100-114): the
constructor raises ValueError (modelled as none) iff
kp_proc <= 0 or tau <= 0 or lambda <= 0 or lambda + theta <= 0; otherwise the
gains Kc = tau*range/(kp_proc*(lambda+theta)), Ki = range/(kp_proc*(lambda+theta)). -/
def computeImcGains (min_temp max_temp : ℚ) (p : ImcParams) : Option Gains :=
  if p.kp_proc ≤ 0 ∨ p.tau ≤ 0 ∨ p.lam ≤ 0 ∨ p.lam + p.theta ≤ 0 then none
  else
    let r := temp_range min_temp max_temp
    some ⟨(p.tau * r) / (p.kp_proc * (p.lam + p.theta)),
          r / (p.kp_proc * (p.lam + p.theta))⟩

/-- The configuration attributes stored on the entity after construction. -/
structure Config where
  min_temp : ℚ
  max_temp : ℚ
  kc : ℚ
  ki : ℚ
  steady_deadband_c : ℚ
  decay_tau_s : ℚ
  window_threshold_per_min : ℚ
  window_duration : ℚ
  ff_k_flow : ℚ
  ff_k_outdoor : ℚ
  ff_tflow_ref : ℚ
  ff_tout_ref : ℚ
  ff_enable_smoothing : Bool
  ff_flow_tau_s : ℚ
  ff_outdoor_tau_s : ℚ
  ff_flow_deadband_k : ℚ
  ff_outdoor_deadband_k : ℚ
  deriving Repr

/-- The HVAC modes supported by the entity. -/
inductive HMode where
  | off
  | heat
  | auto
  deriving DecidableEq, Repr

/-- The mutable controller state of SmartTRVClimate. -/
structure State where
  hvac_mode : HMode
  target_temp : ℚ
  current_temperature : Option ℚ
  i_accum : ℚ
  last_update_monotonic : Option ℚ
  last_u_total : Option ℚ
  valve_position : ℤ
  desired_valve_position : ℤ
  last_valve_send_monotonic : Option ℚ
  last_window_check : Option (ℚ × ℚ)
  window_open_until : Option ℚ
  boiler_flow_temp : Option ℚ
  outdoor_temp : Option ℚ
  flow_filt : Option ℚ
  outdoor_filt : Option ℚ
  last_ff_update_monotonic : Option ℚ
  boost_until : Option ℚ
  deriving Repr

/-- The dispatcher's view of the underlying TRVs: the configured entity list,
whether hass has a state for each entity, the per-TRV observed valve cache
_actual_valve_map, and the aggregated observed position _actual_valve_position. -/
structure DispatchEnv where
  trv_entities : List String
  state_exists : String → Bool
  actual_map : String → Option ℤ
  actual_agg : Option ℤ

/-- Python truthiness of the expression (current or target) on floats:
None and 0.0 both fall back to the target. -/
def pyOr (c : Option ℚ) (d : ℚ) : ℚ :=
  match c with
  | none => d
  | some v => if v = 0 then d else v

/-- Result of _compute_error_and_timing. -/
structure ErrTiming where
  error : ℚ
  range : ℚ
  norm_error : ℚ
  dt : Option ℚ
  st : State

/-- SmartTRVClimate._compute_error_and_timing (lines 426-439). -/
def compute_error_and_timing (cfg : Config) (st : State) (now : ℚ) : ErrTiming :=
  let error := st.target_temp - pyOr st.current_temperature st.target_temp
  let r := temp_range cfg.min_temp cfg.max_temp
  let dt : Option ℚ :=
    match st.last_update_monotonic with
    | none => none
    | some t => some (qmax (1/1000000) (now - t))
  ⟨error, r, qmax 0 (qmin error r) / r, dt,
    { st with last_update_monotonic := some now }⟩

/-- SmartTRVClimate._ewma (lines 184-197). -/
def ewma (E : ℚ → ℚ) (cfg : Config) (prev : Option ℚ) (val tau : ℚ)
    (dt_s : Option ℚ) : ℚ :=
  match dt_s with
  | none => val
  | some d =>
    if ¬cfg.ff_enable_smoothing ∨ tau ≤ 0 ∨ d ≤ 0 then val
    else
      match prev with
      | none => val
      | some p => p + (1 - E (-(d / qmax (1/1000000) tau))) * (val - p)

/-- Result of _update_feedforward. -/
structure FFResult where
  u_ff : ℚ
  st : State

/-- SmartTRVClimate._update_feedforward (lines 441-472).  Which Home Assistant
service is used to reach a TRV is external I/O; only the computed feed-forward
value and the filter state updates are modelled. -/
def update_feedforward (E : ℚ → ℚ) (cfg : Config) (st : State) (now : ℚ) : FFResult :=
  let ff_dt : Option ℚ :=
    match st.last_ff_update_monotonic with
    | none => none
    | some t => some (qmax 0 (now - t))
  let flow_filt : Option ℚ :=
    match st.boiler_flow_temp with
    | none => st.flow_filt
    | some v => some (ewma E cfg st.flow_filt v cfg.ff_flow_tau_s ff_dt)
  let outdoor_filt : Option ℚ :=
    match st.outdoor_temp with
    | none => st.outdoor_filt
    | some v => some (ewma E cfg st.outdoor_filt v cfg.ff_outdoor_tau_s ff_dt)
  let u1 : ℚ :=
    match flow_filt with
    | none => 0
    | some f =>
      if cfg.ff_k_flow ≠ 0 then
        cfg.ff_k_flow * apply_deadband (cfg.ff_tflow_ref - f) cfg.ff_flow_deadband_k
      else 0
  let u2 : ℚ :=
    match outdoor_filt with
    | none => 0
    | some f =>
      if cfg.ff_k_outdoor ≠ 0 then
        cfg.ff_k_outdoor * apply_deadband (cfg.ff_tout_ref - f) cfg.ff_outdoor_deadband_k
      else 0
  ⟨u1 + u2,
   { st with flow_filt := flow_filt, outdoor_filt := outdoor_filt,
             last_ff_update_monotonic := some now }⟩

/-- SmartTRVClimate._classify_band: (in_band, heat_side, cool_side). -/
def classify_band (error eps : ℚ) : Bool × Bool × Bool :=
  (decide (qabs error ≤ eps), decide (eps < error), decide (error < -eps))

/-- SmartTRVClimate._alpha: exponential step factor, 1 when timing invalid. -/
def alpha (E : ℚ → ℚ) (dt : Option ℚ) (tau : ℚ) : ℚ :=
  match dt with
  | none => 1
  | some d => if d ≤ 0 ∨ tau ≤ 0 then 1 else 1 - E (-(d / tau))

/-- SmartTRVClimate._update_integral (lines 482-523). -/
def update_integral (E : ℚ → ℚ) (cfg : Config) (i_accum norm_error : ℚ)
    (heat_side _cool_side : Bool) (dt : Option ℚ) (u_ff : ℚ) : ℚ :=
  match dt with
  | none => i_accum
  | some d =>
    if 0 < d then
      let u_pi_est := cfg.kc * norm_error + cfg.ki * i_accum
      let u_total_est := u_pi_est + u_ff
      if heat_side then
        if u_pi_est < 1 ∧ u_total_est < 1 then i_accum + norm_error * d
        else i_accum
      else
        if 0 < cfg.decay_tau_s then
          let u_i_new := (1 - alpha E (some d) cfg.decay_tau_s) * (cfg.ki * i_accum)
          if 0 < cfg.ki then qmax 0 (u_i_new / cfg.ki) else 0
        else 0
    else i_accum

/-- SmartTRVClimate._compute_pi: (u_pi, u_i). -/
def compute_pi (cfg : Config) (i_accum norm_error : ℚ) : ℚ × ℚ :=
  (cfg.kc * norm_error + cfg.ki * i_accum, cfg.ki * i_accum)

/-- The decay suggestion of _decide_u_total: decay prev_u toward 0 when the
timing is valid (dt present and positive, positive decay tau), else 0.
This is exactly the value the source's has_timing flag selects. -/
def decay_suggestion (E : ℚ → ℚ) (cfg : Config) (prev_u : ℚ) (dt : Option ℚ) : ℚ :=
  match dt with
  | none => 0
  | some d =>
    if 0 < d ∧ 0 < cfg.decay_tau_s then
      qmax 0 (prev_u + alpha E (some d) cfg.decay_tau_s * (0 - prev_u))
    else 0

/-- SmartTRVClimate._decide_u_total (lines 547-605). -/
def decide_u_total (E : ℚ → ℚ) (cfg : Config) (last_u_total : Option ℚ)
    (desired_valve_position : ℤ) (u_pi u_ff error : ℚ) (heat_side : Bool)
    (dt : Option ℚ) : ℚ :=
  let prev_u : ℚ :=
    match last_u_total with
    | some u => u
    | none => clamp01 ((desired_valve_position : ℚ) / (VALVE_OPEN_POSITION : ℚ))
  let u_suggest := clamp01 (u_pi + u_ff)
  let eps_blend := qmax 0 cfg.steady_deadband_c
  if 0 < eps_blend ∧ qabs error ≤ eps_blend then
    let x := clamp ((error + eps_blend) / (2 * eps_blend)) 0 1
    let w := x * x * (3 - 2 * x)
    clamp01 (w * u_suggest + (1 - w) * decay_suggestion E cfg prev_u dt)
  else if heat_side then u_suggest
  else decay_suggestion E cfg prev_u dt

/-- The reference-pair / rate part of _check_window_open (lines 622-646),
reached when no unexpired suppression window is active. -/
def check_window_rest (cfg : Config) (st : State) (current_temp now : ℚ) :
    Bool × State :=
  match st.last_window_check with
  | none => (false, { st with last_window_check := some (current_temp, now) })
  | some tt =>
    let dtw := now - tt.2
    if dtw < WINDOW_CHECK_MIN_INTERVAL_S then (false, st)
    else
      let rate_per_min := (current_temp - tt.1) / dtw * 60
      let st2 := { st with last_window_check := some (current_temp, now) }
      if rate_per_min < -cfg.window_threshold_per_min then
        (true, { st2 with window_open_until := some (now + cfg.window_duration) })
      else (false, st2)

/-- SmartTRVClimate._check_window_open (lines 607-646). -/
def check_window_open (cfg : Config) (st : State) (current_temp now : ℚ) :
    Bool × State :=
  match st.window_open_until with
  | some u =>
    if now < u then (true, st)
    else check_window_rest cfg { st with window_open_until := none } current_temp now
  | none => check_window_rest cfg st current_temp now

/-- Whether a TRV's cached observed position is known and differs from the
target (the per-TRV mismatch test of _async_set_valve_position). -/
def known_mismatch (amap : String → Option ℤ) (p : ℤ) (t : String) : Bool :=
  match amap t with
  | some a => decide (a ≠ p)
  | none => false

/-- The resend_selectively flag of _async_set_valve_position (lines 739-750):
some TRV has a known observed position differing from the target, or no such
TRV exists but the aggregated observed position is known and differs. -/
def resend_selectively (env : DispatchEnv) (p : ℤ) : Bool :=
  env.trv_entities.any (known_mismatch env.actual_map p) ||
    (match env.actual_agg with
     | some a => decide (a ≠ p)
     | none => false)

/-- The TRVs that receive at least one service call in the dispatch loop of
_async_set_valve_position: entities without a hass state are skipped, and in
selective-resend mode entities observed at the target are skipped. -/
def commanded_trvs (env : DispatchEnv) (p : ℤ) (selective : Bool) : List String :=
  env.trv_entities.filter fun t =>
    env.state_exists t && !(selective && decide (env.actual_map t = some p))

/-- Result of _async_set_valve_position. -/
structure SetValveResult where
  valve_position : ℤ
  commanded : List String
  skipped : Bool

/-- SmartTRVClimate._async_set_valve_position (lines 721-812): quantize, then
either skip (everything already at target), resend selectively, or send to all. -/
def set_valve_position (env : DispatchEnv) (step valve_position pos0 : ℤ) :
    SetValveResult :=
  let p := quantize_position step pos0
  if p = valve_position then
    if resend_selectively env p then ⟨p, commanded_trvs env p true, false⟩
    else ⟨valve_position, [], true⟩
  else ⟨p, commanded_trvs env p false, false⟩

/-- SmartTRVClimate._async_request_valve_position (lines 692-719).  now is the
monotonic clock when the request is evaluated, now2 the (later) clock reading
recorded after an actual send completes.  Returns the new state and whether an
actual send (a call to _async_set_valve_position) occurred. -/
def request_valve_position (env : DispatchEnv) (step : ℤ) (st : State)
    (position : ℤ) (force : Bool) (now now2 : ℚ) : State × Bool :=
  let p := zmax VALVE_CLOSED_POSITION (zmin VALVE_OPEN_POSITION position)
  let st1 := { st with desired_valve_position := p }
  let send_now : Bool :=
    force ||
      (match st1.last_valve_send_monotonic with
       | none => true
       | some t => decide (VALVE_UPDATE_MIN_INTERVAL_S ≤ now - t))
  if send_now then
    let r := set_valve_position env step st1.valve_position p
    ({ st1 with valve_position := r.valve_position,
                last_valve_send_monotonic := some now2 }, true)
  else (st1, false)

/-- The AUTO-mode pipeline of _async_control_heating after the window check
(lines 670-690): error/timing, feed-forward, band classification, integral
update, PI, command decision, and a throttled valve request. -/
def control_auto_core (E : ℚ → ℚ) (cfg : Config) (env : DispatchEnv) (step : ℤ)
    (st : State) (now : ℚ) : State :=
  let et := compute_error_and_timing cfg st now
  let ffr := update_feedforward E cfg et.st now
  let heat_side := (classify_band et.error cfg.steady_deadband_c).2.1
  let cool_side := (classify_band et.error cfg.steady_deadband_c).2.2
  let accum := update_integral E cfg ffr.st.i_accum et.norm_error heat_side cool_side et.dt ffr.u_ff
  let st2 := { ffr.st with i_accum := accum }
  let u_pi := (compute_pi cfg st2.i_accum et.norm_error).1
  let u_total := decide_u_total E cfg st2.last_u_total st2.desired_valve_position
      u_pi ffr.u_ff et.error heat_side et.dt
  let st3 := { st2 with last_u_total := some u_total }
  (request_valve_position env step st3 (pyRound (u_total * (VALVE_OPEN_POSITION : ℚ)))
      false now now).1

/-- The AUTO entry of _async_control_heating (lines 657-690): skip when no
current temperature, run the window-open check, force closed and reset the
integral on detection, otherwise run the core pipeline. -/
def control_auto_entry (E : ℚ → ℚ) (cfg : Config) (env : DispatchEnv) (step : ℤ)
    (st : State) (now : ℚ) : State :=
  match st.current_temperature with
  | none => st
  | some c =>
    let ck := check_window_open cfg st c now
    if ck.1 then
      let st2 := { ck.2 with i_accum := 0 }
      if st2.valve_position ≠ VALVE_CLOSED_POSITION then
        (request_valve_position env step st2 VALVE_CLOSED_POSITION true now now).1
      else st2
    else control_auto_core E cfg env step ck.2 now

/-- SmartTRVClimate._async_control_heating (lines 648-690), with the OFF and
boost (HEAT) handlers of lines 398-424 inlined. -/
def control_heating (E : ℚ → ℚ) (cfg : Config) (env : DispatchEnv) (step : ℤ)
    (st : State) (now : ℚ) : State :=
  match st.hvac_mode with
  | HMode.off =>
    let st1 := (request_valve_position env step st VALVE_CLOSED_POSITION true now now).1
    { st1 with i_accum := 0, last_update_monotonic := none }
  | HMode.heat =>
    let st1 := (request_valve_position env step st VALVE_OPEN_POSITION true now now).1
    match st1.boost_until with
    | some b =>
      if b ≤ now then
        control_auto_entry E cfg env step
          { st1 with hvac_mode := HMode.auto, boost_until := none } now
      else st1
    | none => st1
  | HMode.auto => control_auto_entry E cfg env step st now

/-- SmartTRVClimate.async_set_temperature (lines 851-858): no value is a
silent no-op; otherwise the target is stored as given and a control tick runs. -/
def async_set_temperature (E : ℚ → ℚ) (cfg : Config) (env : DispatchEnv)
    (step : ℤ) (st : State) (temperature : Option ℚ) (now : ℚ) : State :=
  match temperature with
  | none => st
  | some v => control_heating E cfg env step { st with target_temp := v } now

/-- A dispatch environment with no underlying TRVs. -/
def envEmpty : DispatchEnv := ⟨[], fun _ => false, fun _ => none, none⟩

/-- The IMC parameters of the spec's end-to-end example. -/
def imcEx : ImcParams := ⟨4, 5400, 900, 5400⟩

/-- The gains the source derives from imcEx with min=5, max=28. -/
def gainsEx : Gains := ⟨69/14, 23/25200⟩

/-- Configuration matching the spec's end-to-end example (min=5, max=28, the
gains derived from imcEx) with the source's fixed internal defaults. -/
def cfgEx : Config :=
  ⟨5, 28, 69/14, 23/25200, DEFAULT_STEADY_DEADBAND_C, DEFAULT_DECAY_TAU_S,
   1, 900, 1/50, 1/100, 55, 10, true, 300, 600, 1/2, 1/2⟩

/-- A fresh AUTO state for the first tick of the end-to-end example:
target 22, current 20, no previous tick, accumulator 0. -/
def stEx : State :=
  ⟨HMode.auto, 22, some 20, 0, none, none, 0, 0, none, none, none,
   none, none, none, none, none, none⟩

/-- In-band state with a charged integral accumulator and a small positive
previous command, used to refute the unconditional in-band decay claim:
target 21, current 20.5 (error exactly the deadband 0.5), accumulator 25200,
previous command 1/100, previous tick at time 0. -/
def stBand : State :=
  ⟨HMode.auto, 21, some (41/2), 25200, some 0, some (1/100), 3, 3, none,
   some (41/2, 40), none, none, none, none, none, none, none⟩

/-- Configuration with a zero window-open suppression duration (the source
never validates the configured duration). -/
def cfgWin : Config :=
  ⟨5, 28, 69/14, 23/25200, DEFAULT_STEADY_DEADBAND_C, DEFAULT_DECAY_TAU_S,
   9/10, 0, 1/50, 1/100, 55, 10, true, 300, 600, 1/2, 1/2⟩

/-- State about to trigger window-open detection: reference (20 degrees, t=0),
current 18 at t=120 (a drop of 1 K/min), valve open at 100. -/
def stWin : State :=
  ⟨HMode.auto, 21, some 18, 2, some 0, some (2/5), 100, 100, none,
   some (20, 0), none, none, none, none, none, none, none⟩

/-- A single-TRV environment whose state exists but reports no position. -/
def envWin : DispatchEnv := ⟨["t"], fun _ => true, fun _ => none, none⟩

/-- Two-TRV environment: trv a is observed at 5, trv b has no observed
position, aggregated observed is 5. -/
def envTwo : DispatchEnv :=
  ⟨["a", "b"], fun _ => true, fun t => if t = "a" then some 5 else none, some 5⟩

/-- An OFF-mode state used to exercise async_set_temperature. -/
def stOff : State :=
  ⟨HMode.off, 21, some 20, 0, none, none, 0, 0, none, none, none,
   none, none, none, none, none, none⟩

/-- Basic facts about the scalar clamp. -/
theorem clamp_mem (x lo hi : ℚ) (h : lo ≤ hi) : lo ≤ clamp x lo hi ∧ clamp x lo hi ≤ hi := by
  unfold clamp
  split_ifs <;> constructor <;> linarith

theorem clamp01_of_nonpos (x : ℚ) (h : x ≤ 0) : clamp01 x = 0 := by
  unfold clamp01 clamp
  split_ifs <;> linarith

theorem clamp01_nonneg (x : ℚ) : 0 ≤ clamp01 x :=
  (clamp_mem x 0 1 (by norm_num)).1

theorem clamp01_lt_of_lt (x p : ℚ) (hx : 0 ≤ x) (h : x < p) : clamp01 x < p := by
  unfold clamp01 clamp
  split_ifs <;> linarith

/-- The computable exp stand-in maps negative arguments into (0, 1), like the
real exponential does. -/
theorem expQ_neg (x : ℚ) (h : x < 0) : 0 < expQ x ∧ expQ x < 1 := by
  unfold expQ
  have h1 : (1:ℚ) < 1 - x := by linarith
  constructor
  · positivity
  · rw [div_lt_one (by linarith)]
    exact h1

/-- With valid timing and an exp mapping negatives into (0,1), the step factor
alpha lies strictly between 0 and 1. -/
theorem alpha_mem (E : ℚ → ℚ) (d tau : ℚ)
    (hE : ∀ x : ℚ, x < 0 → 0 < E x ∧ E x < 1)
    (hd : 0 < d) (htau : 0 < tau) :
    0 < alpha E (some d) tau ∧ alpha E (some d) tau < 1 := by
  unfold alpha
  have harg : -(d / tau) < 0 := by
    have : 0 < d / tau := div_pos hd htau
    linarith
  have hEx := hE _ harg
  dsimp only
  rw [if_neg (by push_neg; exact ⟨hd, htau⟩)]
  constructor <;> linarith [hEx.1, hEx.2]

/-- The smoothstep weight of a clamped argument lies in [0, 1]. -/
theorem smoothstep_mem (x : ℚ) (h0 : 0 ≤ x) (h1 : x ≤ 1) :
    0 ≤ x * x * (3 - 2 * x) ∧ x * x * (3 - 2 * x) ≤ 1 := by
  constructor
  · nlinarith
  · nlinarith [sq_nonneg (1 - x), sq_nonneg x]

/-- A throttled request never changes the stored target temperature. -/
theorem request_target_temp (env : DispatchEnv) (step : ℤ) (st : State) (p : ℤ)
    (f : Bool) (now now2 : ℚ) :
    ((request_valve_position env step st p f now now2).1).target_temp = st.target_temp := by
  unfold request_valve_position
  dsimp only
  split <;> rfl

/-- The window-open rate check never changes the stored target temperature. -/
theorem check_window_rest_target_temp (cfg : Config) (st : State) (c now : ℚ) :
    ((check_window_rest cfg st c now).2).target_temp = st.target_temp := by
  unfold check_window_rest
  rcases hm : st.last_window_check with _ | tt
  · rfl
  · dsimp only
    split
    · rfl
    · split <;> rfl

/-- The window-open check never changes the stored target temperature. -/
theorem check_window_open_target_temp (cfg : Config) (st : State) (c now : ℚ) :
    ((check_window_open cfg st c now).2).target_temp = st.target_temp := by
  unfold check_window_open
  rcases hm : st.window_open_until with _ | u
  · exact check_window_rest_target_temp cfg st c now
  · dsimp only
    split
    · rfl
    · exact check_window_rest_target_temp cfg _ c now

/-- The AUTO-mode pipeline never changes the stored target temperature. -/
theorem control_auto_core_target_temp (E : ℚ → ℚ) (cfg : Config)
    (env : DispatchEnv) (step : ℤ) (st : State) (now : ℚ) :
    (control_auto_core E cfg env step st now).target_temp = st.target_temp := by
  unfold control_auto_core
  rw [request_target_temp]
  rfl

/-- The AUTO entry point never changes the stored target temperature. -/
theorem control_auto_entry_target_temp (E : ℚ → ℚ) (cfg : Config)
    (env : DispatchEnv) (step : ℤ) (st : State) (now : ℚ) :
    (control_auto_entry E cfg env step st now).target_temp = st.target_temp := by
  unfold control_auto_entry
  rcases hm : st.current_temperature with _ | c
  · rfl
  · dsimp only
    split
    · split
      · rw [request_target_temp]
        exact check_window_open_target_temp cfg st c now
      · exact check_window_open_target_temp cfg st c now
    · rw [control_auto_core_target_temp]
      exact check_window_open_target_temp cfg st c now

/-- A control tick never changes the stored target temperature. -/
theorem control_heating_target_temp (E : ℚ → ℚ) (cfg : Config)
    (env : DispatchEnv) (step : ℤ) (st : State) (now : ℚ) :
    (control_heating E cfg env step st now).target_temp = st.target_temp := by
  unfold control_heating
  rcases hm : st.hvac_mode
  · dsimp only
    rw [request_target_temp]
  · dsimp only
    rcases hb : ((request_valve_position env step st VALVE_OPEN_POSITION true now now).1).boost_until with _ | b
    · rw [request_target_temp]
    · dsimp only
      split
      · rw [control_auto_entry_target_temp]
        rw [request_target_temp]
      · rw [request_target_temp]
  · exact control_auto_entry_target_temp E cfg env step st now

/-- Claim C1, counterexample.  With min=5, max=28, Kp_proc=4, tau=5400,
theta=900, lambda=5400 the source derives Kc = 69/14 (about 4.93), which is
not within 1/2 of the claimed 8.05; and on the first tick with target 22 and
current 20 the integer valve position before step-quantization is 109, not
the claimed 179. -/
theorem C1_counterexample :
    computeImcGains 5 28 imcEx = some gainsEx
    ∧ ¬(qabs (gainsEx.kc - 805/100) ≤ 1/2)
    ∧ (control_heating expQ cfgEx envEmpty 5 stEx 100).last_u_total = some (3/7)
    ∧ (control_heating expQ cfgEx envEmpty 5 stEx 100).desired_valve_position = 109
    ∧ (109 : ℤ) ≠ 179 := by
  norm_num [control_heating, control_auto_entry, control_auto_core, check_window_open,
    check_window_rest, compute_error_and_timing, update_feedforward, ewma, classify_band,
    update_integral, compute_pi, decide_u_total, decay_suggestion, alpha, expQ,
    request_valve_position, set_valve_position, quantize_position, snap_to_step, pyRound,
    clampZ, clamp01, clamp, qmax, qmin, qabs, zmax, zmin, pyOr, temp_range,
    resend_selectively, known_mismatch, commanded_trvs, computeImcGains,
    VALVE_OPEN_POSITION, VALVE_CLOSED_POSITION, VALVE_UPDATE_MIN_INTERVAL_S,
    MIN_TEMP_RANGE_C, WINDOW_CHECK_MIN_INTERVAL_S, DEFAULT_STEADY_DEADBAND_C,
    DEFAULT_DECAY_TAU_S,
    imcEx, gainsEx, cfgEx, stEx, envEmpty]

/-- Claim C1, amended.  The same scenario with the values the code actually
produces: Kc = 69/14 (about 4.93), Ki = 23/25200 (about 0.000913 per second),
normalized error 2/23, u_pi = Kc*(2/23) = 3/7 (about 0.429), final command
clamp(3/7, 0, 1) = 3/7, integer position before step-quantization
round((3/7)*255) = 109. -/
theorem C1_amended_thm :
    computeImcGains 5 28 imcEx = some gainsEx
    ∧ gainsEx.kc = 69/14
    ∧ gainsEx.ki = 23/25200
    ∧ (compute_error_and_timing cfgEx stEx 100).error = 2
    ∧ (compute_error_and_timing cfgEx stEx 100).norm_error = 2/23
    ∧ (compute_error_and_timing cfgEx stEx 100).dt = none
    ∧ (compute_pi cfgEx 0 (2/23)).1 = 3/7
    ∧ clamp01 (3/7) = 3/7
    ∧ pyRound ((3/7) * (VALVE_OPEN_POSITION : ℚ)) = 109
    ∧ (control_heating expQ cfgEx envEmpty 5 stEx 100).last_u_total = some (3/7)
    ∧ (control_heating expQ cfgEx envEmpty 5 stEx 100).desired_valve_position = 109 := by
  norm_num [control_heating, control_auto_entry, control_auto_core, check_window_open,
    check_window_rest, compute_error_and_timing, update_feedforward, ewma, classify_band,
    update_integral, compute_pi, decide_u_total, decay_suggestion, alpha, expQ,
    request_valve_position, set_valve_position, quantize_position, snap_to_step, pyRound,
    clampZ, clamp01, clamp, qmax, qmin, qabs, zmax, zmin, pyOr, temp_range,
    resend_selectively, known_mismatch, commanded_trvs, computeImcGains,
    VALVE_OPEN_POSITION, VALVE_CLOSED_POSITION, VALVE_UPDATE_MIN_INTERVAL_S,
    MIN_TEMP_RANGE_C, WINDOW_CHECK_MIN_INTERVAL_S, DEFAULT_STEADY_DEADBAND_C,
    DEFAULT_DECAY_TAU_S,
    imcEx, gainsEx, cfgEx, stEx, envEmpty]

/-- Claim C2, counterexample.  async_set_temperature stores the provided value
without clamping: with configured range [5, 28], setting 40 leaves the stored
target at 40, outside the range. -/
theorem C2_counterexample :
    (async_set_temperature expQ cfgEx envEmpty 1 stOff (some 40) 0).target_temp = 40
    ∧ cfgEx.min_temp = 5 ∧ cfgEx.max_temp = 28
    ∧ ¬((40 : ℚ) ≤ 28) := by
  norm_num [control_heating, control_auto_entry, control_auto_core, check_window_open,
    check_window_rest, compute_error_and_timing, update_feedforward, ewma, classify_band,
    update_integral, compute_pi, decide_u_total, decay_suggestion, alpha, expQ,
    request_valve_position, set_valve_position, quantize_position, snap_to_step, pyRound,
    clampZ, clamp01, clamp, qmax, qmin, qabs, zmax, zmin, pyOr, temp_range,
    resend_selectively, known_mismatch, commanded_trvs, computeImcGains,
    VALVE_OPEN_POSITION, VALVE_CLOSED_POSITION, VALVE_UPDATE_MIN_INTERVAL_S,
    MIN_TEMP_RANGE_C, WINDOW_CHECK_MIN_INTERVAL_S, DEFAULT_STEADY_DEADBAND_C,
    DEFAULT_DECAY_TAU_S,
    async_set_temperature, cfgEx, stOff, envEmpty]

/-- Claim C2, amended.  For every numeric value passed to
async_set_temperature, the value is stored as the target temperature exactly
as given (no clamping — only the constructor clamps the initial target), and
a control tick runs immediately on the updated state; a call without a value
is a silent no-op. -/
theorem C2_amended_thm (E : ℚ → ℚ) (cfg : Config) (env : DispatchEnv)
    (step : ℤ) (st : State) (v now : ℚ) :
    async_set_temperature E cfg env step st (some v) now
      = control_heating E cfg env step { st with target_temp := v } now
    ∧ (async_set_temperature E cfg env step st (some v) now).target_temp = v
    ∧ async_set_temperature E cfg env step st none now = st := by
  refine ⟨rfl, ?_, rfl⟩
  show (control_heating E cfg env step { st with target_temp := v } now).target_temp = v
  rw [control_heating_target_temp]

/-- Claim C3, counterexample.  The constructor does not validate theta on its
own: with Kp_proc=4, tau=5400, theta=0, lambda=5400 (theta ≤ 0, so the claim
demands a construction failure) construction succeeds and returns gains. -/
theorem C3_counterexample :
    (⟨4, 5400, 0, 5400⟩ : ImcParams).theta ≤ 0
    ∧ computeImcGains 5 28 ⟨4, 5400, 0, 5400⟩ = some ⟨23/4, 23/21600⟩ := by
  norm_num [computeImcGains, temp_range, qmax, MIN_TEMP_RANGE_C]

/-- Claim C3, amended.  Construction fails exactly when Kp_proc ≤ 0, tau ≤ 0,
lambda ≤ 0, or lambda + theta ≤ 0 (theta alone is not validated); whenever
construction succeeds the derived gains satisfy Kc > 0 and Ki > 0. -/
theorem C3_amended_thm (mn mx : ℚ) (p : ImcParams) :
    (computeImcGains mn mx p = none ↔
      p.kp_proc ≤ 0 ∨ p.tau ≤ 0 ∨ p.lam ≤ 0 ∨ p.lam + p.theta ≤ 0)
    ∧ ∀ g : Gains, computeImcGains mn mx p = some g → 0 < g.kc ∧ 0 < g.ki := by
  unfold computeImcGains
  by_cases h : p.kp_proc ≤ 0 ∨ p.tau ≤ 0 ∨ p.lam ≤ 0 ∨ p.lam + p.theta ≤ 0
  · rw [if_pos h]
    exact ⟨⟨fun _ => h, fun _ => rfl⟩, fun g hg => Option.noConfusion hg⟩
  · rw [if_neg h]
    push_neg at h
    obtain ⟨h1, h2, h3, h4⟩ := h
    have hr : 0 < temp_range mn mx := by
      unfold temp_range qmax MIN_TEMP_RANGE_C
      split_ifs <;> linarith
    have hden : 0 < p.kp_proc * (p.lam + p.theta) := mul_pos h1 h4
    constructor
    · constructor
      · intro hc
        exact Option.noConfusion hc
      · intro hc
        rcases hc with hc | hc | hc | hc <;> linarith
    · intro g hg
      injection hg with hg
      subst hg
      exact ⟨div_pos (mul_pos h2 hr) hden, div_pos hr hden⟩

/-- Witness for C3_amended_thm: at the example tuning the success branch
applies and yields strictly positive gains. -/
theorem C3_witness : 0 < gainsEx.kc ∧ 0 < gainsEx.ki :=
  (C3_amended_thm 5 28 imcEx).2 gainsEx
    (by norm_num [computeImcGains, imcEx, gainsEx, temp_range, qmax, MIN_TEMP_RANGE_C])

/-- The outer clamp of a non-negative normalization argument is zero when the
inner error is zero. -/
theorem qmax0_qmin0 (r : ℚ) : qmax 0 (qmin 0 r) = 0 := by
  unfold qmax qmin
  split_ifs <;> linarith

/-- Claim C5.  Anti-windup in _update_integral: on a heat-side tick with valid
dt, if the PI estimate Kc*norm + Ki*accum or the total estimate (PI estimate
plus feed-forward) is at least 1, the accumulator does not grow (it is left
unchanged); and whenever the accumulator changes, both estimates were strictly
below 1 and the change is exactly accumulator + norm*dt. -/
theorem C5_thm (E : ℚ → ℚ) (cfg : Config) (accum norm ff d : ℚ) (hd : 0 < d) :
    ((1 ≤ cfg.kc * norm + cfg.ki * accum ∨ 1 ≤ cfg.kc * norm + cfg.ki * accum + ff) →
      update_integral E cfg accum norm true false (some d) ff ≤ accum)
    ∧ (update_integral E cfg accum norm true false (some d) ff ≠ accum →
        cfg.kc * norm + cfg.ki * accum < 1 ∧ cfg.kc * norm + cfg.ki * accum + ff < 1
        ∧ update_integral E cfg accum norm true false (some d) ff = accum + norm * d) := by
  by_cases hc : cfg.kc * norm + cfg.ki * accum < 1 ∧ cfg.kc * norm + cfg.ki * accum + ff < 1
  · have hres : update_integral E cfg accum norm true false (some d) ff = accum + norm * d := by
      unfold update_integral
      dsimp only
      rw [if_pos hd]
      simp [hc]
    constructor
    · intro h1
      rcases h1 with h1 | h1 <;> linarith [hc.1, hc.2]
    · intro _
      exact ⟨hc.1, hc.2, hres⟩
  · have hres : update_integral E cfg accum norm true false (some d) ff = accum := by
      unfold update_integral
      dsimp only
      rw [if_pos hd]
      simp [hc]
    constructor
    · intro _
      rw [hres]
    · intro hne
      exact absurd hres hne

/-- Witness for C5_thm: with the example gains, norm 1 and zero accumulator
the PI estimate 69/14 is saturated and the accumulator stays at 0. -/
theorem C5_witness :
    update_integral expQ cfgEx 0 1 true false (some 60) 0 ≤ 0 :=
  (C5_thm expQ cfgEx 0 1 0 60 (by norm_num)).1 (Or.inl (by norm_num [cfgEx]))

/-- Claim C6.  Heat-side tracking: when the error is strictly above the steady
deadband, _decide_u_total (with the heat_side flag the tick computes for such
an error) returns clamp01(u_pi + u_ff) exactly; the previously committed
command (the decay baseline) is universally quantified and absent from the
right-hand side, so it has no influence. -/
theorem C6_thm (E : ℚ → ℚ) (cfg : Config) (prev : Option ℚ) (dvp : ℤ)
    (u_pi u_ff error : ℚ) (dt : Option ℚ)
    (h : cfg.steady_deadband_c < error) :
    decide_u_total E cfg prev dvp u_pi u_ff error
        (decide (cfg.steady_deadband_c < error)) dt
      = clamp01 (u_pi + u_ff) := by
  have hblend : ¬(0 < qmax 0 cfg.steady_deadband_c
      ∧ qabs error ≤ qmax 0 cfg.steady_deadband_c) := by
    unfold qmax qabs
    split_ifs <;> rintro ⟨h1, h2⟩ <;> linarith
  unfold decide_u_total
  dsimp only
  rw [if_neg hblend]
  simp [h]

/-- Witness for C6_thm: error 2 above deadband 1/2, previous command 9/10,
u_pi 3/7, feed-forward 0. -/
theorem C6_witness :
    decide_u_total expQ cfgEx (some (9/10)) 0 (3/7) 0 2
        (decide (cfgEx.steady_deadband_c < 2)) (some 60) = clamp01 (3/7 + 0) :=
  C6_thm expQ cfgEx (some (9/10)) 0 (3/7) 0 2 (some 60)
    (by norm_num [cfgEx, DEFAULT_STEADY_DEADBAND_C])

/-- Claim C10.  A measured current temperature of exactly 0 behaves like an
absent reading in _compute_error_and_timing: the Python fallback
(current or target) treats 0.0 as falsy, so the error is 0 and the
normalized error is 0 for every target and configuration. -/
theorem C10_thm (cfg : Config) (st : State) (now : ℚ)
    (h : st.current_temperature = some 0) :
    (compute_error_and_timing cfg st now).error = 0
    ∧ (compute_error_and_timing cfg st now).norm_error = 0 := by
  unfold compute_error_and_timing pyOr
  dsimp only
  rw [h]
  dsimp only
  rw [if_pos rfl]
  constructor
  · exact sub_self _
  · rw [sub_self, qmax0_qmin0, zero_div]

/-- Witness for C10_thm: a state reading exactly 0 degrees yields error 0 and
normalized error 0. -/
theorem C10_witness :
    (compute_error_and_timing cfgEx { stOff with current_temperature := some 0 } 5).error = 0
    ∧ (compute_error_and_timing cfgEx
        { stOff with current_temperature := some 0 } 5).norm_error = 0 :=
  C10_thm cfgEx { stOff with current_temperature := some 0 } 5 rfl

/-- A blended command with zero heat suggestion strictly decays below a
positive previous command and stays non-negative. -/
theorem blend_lt (w am prev : ℚ) (hw0 : 0 ≤ w) (hw1 : w ≤ 1)
    (ha0 : 0 < am) (ha1 : am < 1) (hprev : 0 < prev) :
    clamp01 (w * 0 + (1 - w) * ((1 - am) * prev)) < prev
    ∧ 0 ≤ clamp01 (w * 0 + (1 - w) * ((1 - am) * prev)) := by
  have hy0 : 0 ≤ (1 - w) * ((1 - am) * prev) :=
    mul_nonneg (by linarith) (mul_nonneg (by linarith) (by linarith))
  have hylt : w * 0 + (1 - w) * ((1 - am) * prev) < prev := by
    nlinarith [mul_pos ha0 hprev,
      mul_nonneg (mul_nonneg hw0 hprev.le) (show (0:ℚ) ≤ 1 - am by linarith)]
  exact ⟨clamp01_lt_of_lt _ _ (by linarith) hylt, clamp01_nonneg _⟩

/-- Claim C4, counterexample.  A full AUTO tick on stBand: error is exactly
the steady deadband 1/2 (in-band), feed-forward is 0, dt = 60 is valid and
the previous committed command is 1/100 > 0, yet the newly decided command is
1, which is not smaller than 1/100: in the soft-blend zone the command tracks
the charged PI suggestion instead of decaying. -/
theorem C4_counterexample :
    (compute_error_and_timing cfgEx stBand 60).error = 1/2
    ∧ qabs (1/2) ≤ cfgEx.steady_deadband_c
    ∧ stBand.last_u_total = some (1/100) ∧ (0:ℚ) < 1/100
    ∧ (compute_error_and_timing cfgEx stBand 60).dt = some 60
    ∧ (update_feedforward expQ cfgEx (compute_error_and_timing cfgEx stBand 60).st 60).u_ff = 0
    ∧ (control_heating expQ cfgEx envEmpty 1 stBand 60).last_u_total = some 1
    ∧ ¬((1:ℚ) < 1/100) := by
  norm_num [control_heating, control_auto_entry, control_auto_core, check_window_open,
    check_window_rest, compute_error_and_timing, update_feedforward, ewma, classify_band,
    update_integral, compute_pi, decide_u_total, decay_suggestion, alpha, expQ,
    request_valve_position, set_valve_position, quantize_position, snap_to_step, pyRound,
    clampZ, clamp01, clamp, qmax, qmin, qabs, zmax, zmin, pyOr, temp_range,
    resend_selectively, known_mismatch, commanded_trvs, computeImcGains,
    VALVE_OPEN_POSITION, VALVE_CLOSED_POSITION, VALVE_UPDATE_MIN_INTERVAL_S,
    MIN_TEMP_RANGE_C, WINDOW_CHECK_MIN_INTERVAL_S, DEFAULT_STEADY_DEADBAND_C,
    DEFAULT_DECAY_TAU_S,
    cfgEx, stBand, envEmpty]

/-- Claim C4, amended.  In-band decay holds once the PI suggestion is not
positive: for every in-band tick (|error| at most the steady deadband, so the
tick's heat_side flag is false) with feed-forward 0, u_pi ≤ 0, valid timing
(positive dt and positive decay tau), an exp mapping negatives into (0,1),
and a strictly positive previous committed command, the newly decided command
is strictly less than the previous command and non-negative. -/
theorem C4_amended_thm (E : ℚ → ℚ) (cfg : Config) (prev_u u_pi error d : ℚ)
    (dvp : ℤ)
    (hE : ∀ x : ℚ, x < 0 → 0 < E x ∧ E x < 1)
    (hband : qabs error ≤ cfg.steady_deadband_c)
    (hpi : u_pi ≤ 0) (hd : 0 < d) (htau : 0 < cfg.decay_tau_s)
    (hprev : 0 < prev_u) :
    decide_u_total E cfg (some prev_u) dvp u_pi 0 error false (some d) < prev_u
    ∧ 0 ≤ decide_u_total E cfg (some prev_u) dvp u_pi 0 error false (some d) := by
  obtain ⟨ha0, ha1⟩ := alpha_mem E d cfg.decay_tau_s hE hd htau
  set a := alpha E (some d) cfg.decay_tau_s with hadef
  have hdecay : decay_suggestion E cfg prev_u (some d) = (1 - a) * prev_u := by
    unfold decay_suggestion
    dsimp only
    rw [if_pos ⟨hd, htau⟩, ← hadef]
    have h0 : 0 ≤ prev_u + a * (0 - prev_u) := by nlinarith
    unfold qmax
    rw [if_pos h0]
    ring
  have hsug : clamp01 (u_pi + 0) = 0 := by
    rw [add_zero]
    exact clamp01_of_nonpos u_pi hpi
  obtain ⟨hx0, hx1⟩ := clamp_mem
    ((error + qmax 0 cfg.steady_deadband_c) / (2 * qmax 0 cfg.steady_deadband_c)) 0 1
    (by norm_num)
  obtain ⟨hw0, hw1⟩ := smoothstep_mem
    (clamp ((error + qmax 0 cfg.steady_deadband_c) / (2 * qmax 0 cfg.steady_deadband_c)) 0 1)
    hx0 hx1
  unfold decide_u_total
  dsimp only
  by_cases hb : 0 < qmax 0 cfg.steady_deadband_c
      ∧ qabs error ≤ qmax 0 cfg.steady_deadband_c
  · rw [if_pos hb, hsug, hdecay]
    exact blend_lt _ a prev_u hw0 hw1 ha0 ha1 hprev
  · rw [if_neg hb]
    simp only [Bool.false_eq_true, if_false]
    rw [hdecay]
    constructor <;> nlinarith

/-- Witness for C4_amended_thm: error 0, u_pi 0, previous command 1/2, dt 60
with the example configuration and the concrete exp stand-in. -/
theorem C4_witness :
    decide_u_total expQ cfgEx (some (1/2)) 0 0 0 0 false (some 60) < 1/2
    ∧ 0 ≤ decide_u_total expQ cfgEx (some (1/2)) 0 0 0 0 false (some 60) :=
  C4_amended_thm expQ cfgEx (1/2) 0 0 60 0 expQ_neg
    (by norm_num [qabs, cfgEx, DEFAULT_STEADY_DEADBAND_C])
    le_rfl (by norm_num)
    (by norm_num [cfgEx, DEFAULT_DECAY_TAU_S]) (by norm_num)

/-- The per-TRV mismatch flag holds exactly when the observed position is
known and differs from the target. -/
theorem known_mismatch_iff (amap : String → Option ℤ) (p : ℤ) (t : String) :
    known_mismatch amap p t = true ↔ ∃ a, amap t = some a ∧ a ≠ p := by
  unfold known_mismatch
  cases h : amap t <;> simp [h]

/-- The resend_selectively flag holds exactly when some configured TRV has a
known observed position differing from the target, or the aggregated observed
position is known and differs. -/
theorem resend_selectively_iff (env : DispatchEnv) (p : ℤ) :
    resend_selectively env p = true ↔
      (∃ t ∈ env.trv_entities, ∃ a, env.actual_map t = some a ∧ a ≠ p)
      ∨ (∃ a, env.actual_agg = some a ∧ a ≠ p) := by
  unfold resend_selectively
  rw [Bool.or_eq_true, List.any_eq_true]
  simp only [known_mismatch_iff]
  cases h : env.actual_agg <;> simp [h]

/-- Claim C7, counterexample.  With requested = committed = 10, TRV a observed
at 5 (differs) and TRV b with no observed position, the dispatch commands both
a and b: an actuator with an unknown observed position also receives a
command, so the commanded set is not exactly the known-differing actuators. -/
theorem C7_counterexample :
    quantize_position 1 10 = 10
    ∧ envTwo.actual_map "a" = some 5 ∧ (5:ℤ) ≠ 10
    ∧ envTwo.actual_map "b" = none
    ∧ (set_valve_position envTwo 1 10 10).commanded = ["a", "b"] := by
  refine ⟨by decide, by decide, by decide, by decide, by decide⟩

/-- Claim C7, amended.  For a dispatch whose quantized request equals the last
committed position: if some TRV's known observed position differs from the
target or the aggregated observed position differs, exactly the TRVs whose
hass state is available and that are not observed at the target (differing or
unknown observed position) receive a command, i.e. TRVs observed at the
target are skipped; if no known per-TRV or aggregated mismatch exists, no
command is sent and the dispatch is skipped. -/
theorem C7_amended_thm (env : DispatchEnv) (step vp pos0 : ℤ)
    (h : quantize_position step pos0 = vp) :
    (resend_selectively env vp = true →
        (set_valve_position env step vp pos0).commanded
          = env.trv_entities.filter
              (fun t => env.state_exists t && !(decide (env.actual_map t = some vp))))
    ∧ (resend_selectively env vp = false →
        (set_valve_position env step vp pos0).commanded = []
        ∧ (set_valve_position env step vp pos0).skipped = true)
    ∧ (resend_selectively env vp = true ↔
        (∃ t ∈ env.trv_entities, ∃ a, env.actual_map t = some a ∧ a ≠ vp)
        ∨ (∃ a, env.actual_agg = some a ∧ a ≠ vp)) := by
  refine ⟨?_, ?_, resend_selectively_iff env vp⟩
  · intro hr
    unfold set_valve_position
    dsimp only
    rw [h, if_pos rfl, if_pos hr]
    unfold commanded_trvs
    simp
  · intro hr
    unfold set_valve_position
    dsimp only
    rw [h, if_pos rfl, hr]
    simp

/-- Witness for C7_amended_thm: in the two-TRV environment the mismatch on a
forces a selective resend that commands exactly the TRVs not observed at the
target, here a and b. -/
theorem C7_witness :
    (set_valve_position envTwo 1 10 10).commanded
      = envTwo.trv_entities.filter
          (fun t => envTwo.state_exists t && !(decide (envTwo.actual_map t = some 10))) :=
  (C7_amended_thm envTwo 1 10 10 (by decide)).1 (by decide)

/-- A non-forced request sends exactly when no send is recorded or the minimum
interval has elapsed since the recorded send. -/
theorem request_sent_iff (env : DispatchEnv) (step : ℤ) (st : State) (p : ℤ)
    (now now2 : ℚ) :
    (request_valve_position env step st p false now now2).2 = true ↔
      (st.last_valve_send_monotonic = none
       ∨ ∃ ts, st.last_valve_send_monotonic = some ts
           ∧ VALVE_UPDATE_MIN_INTERVAL_S ≤ now - ts) := by
  unfold request_valve_position
  dsimp only
  cases h : st.last_valve_send_monotonic with
  | none => simp [h]
  | some ts =>
    by_cases hts : VALVE_UPDATE_MIN_INTERVAL_S ≤ now - ts <;> simp [h, hts]

/-- A request either sends (recording the send time and the dispatch outcome)
or only records the clamped desired position. -/
theorem request_cases (env : DispatchEnv) (step : ℤ) (st : State) (p : ℤ)
    (f : Bool) (now now2 : ℚ) :
    ((request_valve_position env step st p f now now2).2 = true
      ∧ (request_valve_position env step st p f now now2).1
        = { st with
            desired_valve_position := zmax VALVE_CLOSED_POSITION (zmin VALVE_OPEN_POSITION p),
            valve_position := (set_valve_position env step st.valve_position
              (zmax VALVE_CLOSED_POSITION (zmin VALVE_OPEN_POSITION p))).valve_position,
            last_valve_send_monotonic := some now2 })
    ∨ ((request_valve_position env step st p f now now2).2 = false
      ∧ (request_valve_position env step st p f now now2).1
        = { st with
            desired_valve_position := zmax VALVE_CLOSED_POSITION (zmin VALVE_OPEN_POSITION p) }) := by
  unfold request_valve_position
  dsimp only
  split
  · exact Or.inl ⟨rfl, rfl⟩
  · exact Or.inr ⟨rfl, rfl⟩

/-- Claim C8.  Throttling of _async_request_valve_position: for two non-forced
requests issued within the minimum update interval of each other (issue times
t1 ≤ t2, send completion t1 ≤ t1q ≤ t2, t2 - t1 < interval), at most one of
them performs an actual send; when the pair starts with no recorded prior send
the first request sends and the second does not — it only records the clamped
desired position; and any non-forced request arriving once the interval has
elapsed since the recorded send performs a send again. -/
theorem C8_thm (env : DispatchEnv) (step : ℤ) (st : State) (p1 p2 : ℤ)
    (t1 t1q t2 t2q : ℚ) (h01 : t1 ≤ t1q) (h12 : t1q ≤ t2)
    (hlt : t2 - t1 < VALVE_UPDATE_MIN_INTERVAL_S) :
    (¬((request_valve_position env step st p1 false t1 t1q).2 = true
       ∧ (request_valve_position env step
            (request_valve_position env step st p1 false t1 t1q).1 p2 false t2 t2q).2 = true))
    ∧ (st.last_valve_send_monotonic = none →
        (request_valve_position env step st p1 false t1 t1q).2 = true
        ∧ (request_valve_position env step
            (request_valve_position env step st p1 false t1 t1q).1 p2 false t2 t2q).2 = false
        ∧ (request_valve_position env step
            (request_valve_position env step st p1 false t1 t1q).1 p2 false t2 t2q).1
          = { (request_valve_position env step st p1 false t1 t1q).1 with
              desired_valve_position := zmax VALVE_CLOSED_POSITION (zmin VALVE_OPEN_POSITION p2) })
    ∧ (∀ (st3 : State) (p3 : ℤ) (t3 t3q ts : ℚ),
        st3.last_valve_send_monotonic = some ts →
        VALVE_UPDATE_MIN_INTERVAL_S ≤ t3 - ts →
        (request_valve_position env step st3 p3 false t3 t3q).2 = true) := by
  have hnot2 : (request_valve_position env step st p1 false t1 t1q).2 = true →
      (request_valve_position env step
        (request_valve_position env step st p1 false t1 t1q).1 p2 false t2 t2q).2 = false := by
    intro hs1
    rcases request_cases env step st p1 false t1 t1q with ⟨_, hst1⟩ | ⟨hf, _⟩
    · have hl : ((request_valve_position env step st p1 false t1 t1q).1).last_valve_send_monotonic
          = some t1q := by rw [hst1]
      by_contra hne
      have hs2 : (request_valve_position env step
          (request_valve_position env step st p1 false t1 t1q).1 p2 false t2 t2q).2 = true := by
        cases hb : (request_valve_position env step
            (request_valve_position env step st p1 false t1 t1q).1 p2 false t2 t2q).2
        · exact absurd hb hne
        · rfl
      rw [request_sent_iff] at hs2
      rcases hs2 with h | ⟨ts, hts, hge⟩
      · rw [hl] at h
        exact Option.noConfusion h
      · rw [hl] at hts
        injection hts with hts
        subst hts
        unfold VALVE_UPDATE_MIN_INTERVAL_S at hge hlt
        linarith
    · rw [hf] at hs1
      exact Bool.noConfusion hs1
  refine ⟨?_, ?_, ?_⟩
  · rintro ⟨hs1, hs2⟩
    rw [hnot2 hs1] at hs2
    exact Bool.noConfusion hs2
  · intro h0
    have hs1 : (request_valve_position env step st p1 false t1 t1q).2 = true :=
      (request_sent_iff env step st p1 t1 t1q).mpr (Or.inl h0)
    have hs2 := hnot2 hs1
    refine ⟨hs1, hs2, ?_⟩
    rcases request_cases env step
        (request_valve_position env step st p1 false t1 t1q).1 p2 false t2 t2q with
      ⟨ht, _⟩ | ⟨_, hst2⟩
    · rw [ht] at hs2
      exact Bool.noConfusion hs2
    · exact hst2
  · intro st3 p3 t3 t3q ts hts hge
    exact (request_sent_iff env step st3 p3 t3 t3q).mpr (Or.inr ⟨ts, hts, hge⟩)

/-- Witness for C8_thm: from a fresh state, requests at t=0 and t=30 with the
60 s minimum interval: the first sends, the second only records the desired
position. -/
theorem C8_witness :
    (request_valve_position envEmpty 1 stOff 100 false 0 0).2 = true
    ∧ (request_valve_position envEmpty 1
        (request_valve_position envEmpty 1 stOff 100 false 0 0).1 120 false 30 30).2 = false
    ∧ (request_valve_position envEmpty 1
        (request_valve_position envEmpty 1 stOff 100 false 0 0).1 120 false 30 30).1
      = { (request_valve_position envEmpty 1 stOff 100 false 0 0).1 with desired_valve_position := zmax VALVE_CLOSED_POSITION (zmin VALVE_OPEN_POSITION 120) } :=
  (C8_thm envEmpty 1 stOff 100 120 0 0 30 30 (by norm_num) (by norm_num)
    (by norm_num [VALVE_UPDATE_MIN_INTERVAL_S])).2.1 rfl

/-- Quantizing the closed position yields the closed position for any step. -/
theorem quantize_zero (step : ℤ) : quantize_position step 0 = 0 := by
  unfold quantize_position snap_to_step
  have h0 : clampZ 0 VALVE_CLOSED_POSITION VALVE_OPEN_POSITION = 0 := by
    norm_num [clampZ, VALVE_CLOSED_POSITION, VALVE_OPEN_POSITION]
  have hr : pyRound 0 = 0 := by
    norm_num [pyRound]
  split
  · split
    · exact h0
    · rw [h0]
      push_cast
      rw [zero_div, hr, zero_mul, h0]
  · exact h0

/-- Dispatching the closed position when the committed position is open
commits the closed position. -/
theorem set_valve_closes (env : DispatchEnv) (step vp : ℤ) (h : vp ≠ 0) :
    (set_valve_position env step vp 0).valve_position = 0 := by
  unfold set_valve_position
  dsimp only
  rw [quantize_zero, if_neg (fun hc => h hc.symm)]

/-- A forced request always performs an actual send. -/
theorem request_forced_sends (env : DispatchEnv) (step : ℤ) (st : State)
    (p : ℤ) (now now2 : ℚ) :
    (request_valve_position env step st p true now now2).2 = true := by
  unfold request_valve_position
  dsimp only
  rw [if_pos (by simp)]

/-- When no unexpired suppression is active, the reference pair is at least
the minimum check interval old and the drop rate exceeds the threshold, the
window check reports open, refreshes the reference pair and sets the
suppression-until timestamp to now + configured duration. -/
theorem check_window_detects (cfg : Config) (st : State) (c now T0 t0 : ℚ)
    (hsup : st.window_open_until = none ∨ ∃ u, st.window_open_until = some u ∧ u ≤ now)
    (href : st.last_window_check = some (T0, t0))
    (hdt : WINDOW_CHECK_MIN_INTERVAL_S ≤ now - t0)
    (hrate : (c - T0) / (now - t0) * 60 < -cfg.window_threshold_per_min) :
    check_window_open cfg st c now
      = (true, { st with last_window_check := some (c, now), window_open_until := some (now + cfg.window_duration) }) := by
  obtain ⟨mo, tg, ct, ia, lu, lut, vp, dvp, lvs, lwc, wou, bft, ot, ffl, ofl, lffu, bu⟩ := st
  dsimp only at href hsup ⊢
  subst href
  rcases hsup with h | ⟨u, hu, hle⟩
  · subst h
    unfold check_window_open check_window_rest
    dsimp only
    rw [if_neg (not_lt.mpr hdt), if_pos hrate]
  · subst hu
    unfold check_window_open check_window_rest
    dsimp only
    rw [if_neg (not_lt.mpr hle)]
    rw [if_neg (not_lt.mpr hdt), if_pos hrate]

/-- When the suppression window has expired and the fresh rate check does not
trigger (reference too recent, or drop rate within the threshold), the window
check reports closed. -/
theorem check_window_resumes (cfg : Config) (st : State) (c now T0 t0 u : ℚ)
    (hu : st.window_open_until = some u) (hle : u ≤ now)
    (href : st.last_window_check = some (T0, t0))
    (hnor : now - t0 < WINDOW_CHECK_MIN_INTERVAL_S
      ∨ -cfg.window_threshold_per_min ≤ (c - T0) / (now - t0) * 60) :
    (check_window_open cfg st c now).1 = false := by
  obtain ⟨mo, tg, ct, ia, lu, lut, vp, dvp, lvs, lwc, wou, bft, ot, ffl, ofl, lffu, bu⟩ := st
  subst href
  subst hu
  unfold check_window_open check_window_rest
  dsimp only
  rw [if_neg (not_lt.mpr hle)]
  rcases hnor with h | h
  · rw [if_pos h]
  · by_cases hdt : now - t0 < WINDOW_CHECK_MIN_INTERVAL_S
    · rw [if_pos hdt]
    · rw [if_neg hdt, if_neg (not_lt.mpr h)]

/-- A forced closed-position request on an open valve closes the valve,
records desired position 0 and the send time, and changes nothing else. -/
theorem request_closed_eq (env : DispatchEnv) (step : ℤ) (st2 : State) (now : ℚ)
    (hv : st2.valve_position ≠ 0) :
    (request_valve_position env step st2 VALVE_CLOSED_POSITION true now now).1
      = { st2 with desired_valve_position := 0, valve_position := 0, last_valve_send_monotonic := some now } := by
  rcases request_cases env step st2 VALVE_CLOSED_POSITION true now now with ⟨_, hst⟩ | ⟨hf, _⟩
  · rw [hst]
    have hz : zmax VALVE_CLOSED_POSITION (zmin VALVE_OPEN_POSITION VALVE_CLOSED_POSITION) = 0 := by
      decide
    rw [hz, set_valve_closes env step st2.valve_position hv]
  · rw [request_forced_sends env step st2 VALVE_CLOSED_POSITION now now] at hf
    exact Bool.noConfusion hf

/-- In AUTO mode the tick is the AUTO entry point. -/
theorem control_heating_auto (E : ℚ → ℚ) (cfg : Config) (env : DispatchEnv)
    (step : ℤ) (st : State) (now : ℚ) (hmode : st.hvac_mode = HMode.auto) :
    control_heating E cfg env step st now = control_auto_entry E cfg env step st now := by
  unfold control_heating
  rw [hmode]

/-- Claim C9, counterexample.  The configured suppression duration is never
validated: with window_duration = 0 a detection tick (reference 20 degrees at
t=0, current 18 at t=120, a 1 K/min drop above the 0.9 threshold) does reset
the integral and close the valve, but sets the suppression-until timestamp to
now itself, which is not strictly in the future. -/
theorem C9_counterexample :
    cfgWin.window_duration = 0
    ∧ stWin.hvac_mode = HMode.auto
    ∧ stWin.last_window_check = some (20, 0)
    ∧ ((18 : ℚ) - 20) / (120 - 0) * 60 < -cfgWin.window_threshold_per_min
    ∧ (control_heating expQ cfgWin envWin 5 stWin 120).i_accum = 0
    ∧ (control_heating expQ cfgWin envWin 5 stWin 120).valve_position = VALVE_CLOSED_POSITION
    ∧ (control_heating expQ cfgWin envWin 5 stWin 120).window_open_until = some 120
    ∧ ¬((120 : ℚ) < 120) := by
  norm_num [control_heating, control_auto_entry, control_auto_core, check_window_open,
    check_window_rest, compute_error_and_timing, update_feedforward, ewma, classify_band,
    update_integral, compute_pi, decide_u_total, decay_suggestion, alpha, expQ,
    request_valve_position, set_valve_position, quantize_position, snap_to_step, pyRound,
    clampZ, clamp01, clamp, qmax, qmin, qabs, zmax, zmin, pyOr, temp_range,
    resend_selectively, known_mismatch, commanded_trvs, computeImcGains,
    VALVE_OPEN_POSITION, VALVE_CLOSED_POSITION, VALVE_UPDATE_MIN_INTERVAL_S,
    MIN_TEMP_RANGE_C, WINDOW_CHECK_MIN_INTERVAL_S, DEFAULT_STEADY_DEADBAND_C,
    DEFAULT_DECAY_TAU_S,
    cfgWin, stWin, envWin]

/-- Claim C9, amended.  Window-open detection and resumption: on an AUTO tick
with a current reading, a reference pair at least the minimum check interval
old and a drop rate beyond the threshold (and no unexpired suppression), the
tick zeroes the integral accumulator, commits the fully closed valve
position, and sets the suppression-until timestamp to now + the configured
duration — which is strictly in the future exactly when the configured
duration is positive; and on a tick whose suppression timestamp has passed
and whose fresh rate check does not retrigger, the window check reports
closed and the tick runs the normal AUTO control pipeline on the post-check
state. -/
theorem C9_amended_thm (E : ℚ → ℚ) (cfg : Config) (env : DispatchEnv) (step : ℤ)
    (st : State) (c now T0 t0 : ℚ)
    (hmode : st.hvac_mode = HMode.auto)
    (hcur : st.current_temperature = some c)
    (href : st.last_window_check = some (T0, t0)) :
    ((st.window_open_until = none ∨ ∃ u, st.window_open_until = some u ∧ u ≤ now) →
      WINDOW_CHECK_MIN_INTERVAL_S ≤ now - t0 →
      (c - T0) / (now - t0) * 60 < -cfg.window_threshold_per_min →
        (control_heating E cfg env step st now).i_accum = 0
        ∧ (control_heating E cfg env step st now).window_open_until
            = some (now + cfg.window_duration)
        ∧ (control_heating E cfg env step st now).valve_position = VALVE_CLOSED_POSITION
        ∧ (0 < cfg.window_duration →
            ∀ u, (control_heating E cfg env step st now).window_open_until = some u → now < u))
    ∧ (∀ u, st.window_open_until = some u → u ≤ now →
        (now - t0 < WINDOW_CHECK_MIN_INTERVAL_S
          ∨ -cfg.window_threshold_per_min ≤ (c - T0) / (now - t0) * 60) →
        (check_window_open cfg st c now).1 = false
        ∧ control_heating E cfg env step st now
            = control_auto_core E cfg env step (check_window_open cfg st c now).2 now) := by
  constructor
  · intro hsup hdt hrate
    have hck := check_window_detects cfg st c now T0 t0 hsup href hdt hrate
    rw [control_heating_auto E cfg env step st now hmode]
    unfold control_auto_entry
    rw [hcur]
    dsimp only
    rw [hck]
    dsimp only
    by_cases hv : st.valve_position = VALVE_CLOSED_POSITION
    · rw [if_neg (not_not_intro hv)]
      refine ⟨rfl, rfl, hv, ?_⟩
      intro hdur u hu
      injection hu with hu
      rw [← hu]
      linarith
    · rw [if_pos hv, request_closed_eq]
      · refine ⟨rfl, rfl, rfl, ?_⟩
        intro hdur u hu
        injection hu with hu
        rw [← hu]
        linarith
      · simpa [VALVE_CLOSED_POSITION] using hv
  · intro u hu hle hnor
    have hck1 := check_window_resumes cfg st c now T0 t0 u hu hle href hnor
    refine ⟨hck1, ?_⟩
    rw [control_heating_auto E cfg env step st now hmode]
    unfold control_auto_entry
    rw [hcur]
    dsimp only
    rw [hck1, if_neg Bool.false_ne_true]

/-- Witness for C9_amended_thm: detection fires on stWin at t=120 (drop of
1 K/min against a 0.9 K/min threshold), and a tick at t=120 with suppression
expired at t=100 and a too-recent reference pair resumes normal control. -/
theorem C9_witness :
    ((control_heating expQ cfgWin envWin 5 stWin 120).i_accum = 0
     ∧ (control_heating expQ cfgWin envWin 5 stWin 120).window_open_until
         = some (120 + cfgWin.window_duration)
     ∧ (control_heating expQ cfgWin envWin 5 stWin 120).valve_position = VALVE_CLOSED_POSITION)
    ∧ ((check_window_open cfgWin { stWin with window_open_until := some 100, last_window_check := some (20, 100) } 18 120).1 = false
     ∧ control_heating expQ cfgWin envWin 5 { stWin with window_open_until := some 100, last_window_check := some (20, 100) } 120
         = control_auto_core expQ cfgWin envWin 5 (check_window_open cfgWin { stWin with window_open_until := some 100, last_window_check := some (20, 100) } 18 120).2 120) := by
  have ha := (C9_amended_thm expQ cfgWin envWin 5 stWin 18 120 20 0 rfl rfl rfl).1
    (Or.inl rfl) (by norm_num [WINDOW_CHECK_MIN_INTERVAL_S]) (by norm_num [cfgWin])
  have hb := (C9_amended_thm expQ cfgWin envWin 5
      { stWin with window_open_until := some 100, last_window_check := some (20, 100) }
      18 120 20 100 rfl rfl rfl).2 100 rfl (by norm_num)
    (Or.inl (by norm_num [WINDOW_CHECK_MIN_INTERVAL_S]))
  exact ⟨⟨ha.1, ha.2.1, ha.2.2.1⟩, hb⟩

end SmartTRV





